import Mathlib

/-!
Shallow embedding of the data-normalization and chart-assembly pipeline of
the PhonePe transaction dashboard (src/app1.py), together with proofs of the
specification's claims about it.

Conventions of the embedding:
* Python strings are modelled as `List Char`; `str.lower` is `lowerL`,
  `str.strip` is `stripL` (stripping the common ASCII whitespace characters
  that Python's `str.strip()` removes).
* A cell of an object-dtype pandas column is a `Value`: a string, a number,
  or a missing value (`NaN`/`None`).  pandas `Series.str` accessor methods
  (`.str.lower()`, `.str.strip()`) map every non-string cell to a missing
  value, which the embedding mirrors exactly.
* A pandas `DataFrame` is a list of named columns (`Col`); `pd.DataFrame()`
  (no rows, no columns) is `[]`.
* numpy float division is `npDiv` on exact rationals: division by a nonzero
  denominator is exact, division of a positive (negative, zero) numerator by
  zero is `inf` (`ninf`, `nan`) — numpy emits a warning but never raises.
* `groupby(sort=True)` sorts the distinct keys; `nlargest(n, col)` with
  `n` at least the length falls back to `sort_values(ascending=False)` with
  the default unstable quicksort, which promises only a descending
  permutation of its input: `SortedDescOutput` captures exactly that
  guarantee, and `topN` fixes one admissible output (no theorem relies on
  the tie order `topN` happens to produce).
-/

/-- Convert a Lean string literal to the `List Char` representation used by
the embedding. -/
def s2l (s : String) : List Char := s.data

/-- The whitespace characters removed by Python's `str.strip()` (space, tab,
newline, carriage return, vertical tab, form feed). -/
def isPyWS (c : Char) : Bool :=
  (c == ' ') || (c == '\t') || (c == '\n') || (c == '\r') || (c == '\x0b') || (c == '\x0c')

/-- Python `str.lower` on the embedded string. -/
def lowerL (l : List Char) : List Char := l.map Char.toLower

/-- Python `str.strip` on the embedded string: drop whitespace from both
ends. -/
def stripL (l : List Char) : List Char :=
  (((l.dropWhile isPyWS).reverse).dropWhile isPyWS).reverse

/-- A cell of an object-dtype pandas column: a string, a number, or a
missing value (`NaN` / `None`). -/
inductive Value where
  | vstr : List Char → Value
  | vnum : Int → Value
  | vnull : Value
deriving DecidableEq, Repr

/-- pandas `Series.str.lower()` on one cell: lowercases a string cell and
maps every non-string cell to a missing value. -/
def strLower : Value → Value
  | .vstr s => .vstr (lowerL s)
  | _ => .vnull

/-- pandas `Series.str.strip()` on one cell: strips a string cell and maps
every non-string cell to a missing value. -/
def strStrip : Value → Value
  | .vstr s => .vstr (stripL s)
  | _ => .vnull

/-- The `state_mappings` dictionary of `load_table_data` (src/app1.py lines
82-86): the two multi-word aliases plus the hardcoded Odisha fix. -/
def state_mappings : List (List Char × List Char) :=
  [ (s2l "andaman and nicobar", s2l "andaman & nicobar islands"),
    (s2l "dadra and nagar haveli and daman and diu", s2l "dadra & nagar haveli & daman & diu"),
    (s2l "orissa", s2l "odisha") ]

/-- pandas `Series.replace(mapping)` on one cell: a string cell equal to a
key of the mapping is replaced by its value; every other cell (including a
missing one) is unchanged. -/
def replaceVal (m : List (List Char × List Char)) : Value → Value
  | .vstr s =>
    match m.lookup s with
    | some t => .vstr t
    | none => .vstr s
  | v => v

/-- The per-cell state-name standardization of the tabular path
(src/app1.py lines 79-87): `.str.lower().str.strip()` followed by
`.replace(state_mappings)`. -/
def tabStandardizeCell (v : Value) : Value :=
  replaceVal state_mappings (strStrip (strLower v))

/-- Model of `feature["properties"].get("NAME_1", "")` (src/app1.py line 48): a
missing property defaults to the empty string. -/
def geoStateName (prop : Option Value) : Value :=
  prop.getD (.vstr [])

/-- The per-feature state-name standardization of the geographic-reference
path (src/app1.py lines 49-59): a string is lowercased, stripped, and the
hardcoded `"orissa" → "odisha"` fix applied; a non-string becomes the empty
string. -/
def geoStandardizeName (v : Value) : List Char :=
  match v with
  | .vstr s =>
    let standardized := stripL (lowerL s)
    if standardized = s2l "orissa" then s2l "odisha" else standardized
  | _ => []

/-- One named column of a pandas `DataFrame`. -/
structure Col where
  name : String
  cells : List Value
deriving DecidableEq, Repr

/-- Model of `pd.DataFrame()` with zero rows and no columns. -/
def emptyFrame : List Col := []

/-- pandas `df.empty`: true when an axis has length zero (no columns, or no
rows in any column). -/
def frameEmpty (df : List Col) : Bool :=
  df.isEmpty || df.all (fun c => c.cells.isEmpty)

/-- The state-name standardization block of `load_table_data` (src/app1.py
lines 78-90), executed when a `"States"` column exists: that column is
lowercased, stripped, alias-replaced and renamed to `"State"`; every other
column is untouched. -/
def standardizeStates (df : List Col) : List Col :=
  df.map fun c =>
    if c.name = "States" then
      { name := "State", cells := c.cells.map tabStandardizeCell }
    else c

/-- Model of `get_database_engine` (src/app1.py lines 24-31): returns the engine, or
`None` when creating it raises. -/
def get_database_engine {Engine : Type} (createEngine : Except String Engine) :
    Option Engine :=
  match createEngine with
  | .ok e => some e
  | .error _ => none

/-- Model of `load_table_data` (src/app1.py lines 67-95): fetch `SELECT * FROM
table`, standardize the `"States"` column when present; on a missing engine
or a raised query error return an empty frame. -/
def load_table_data {Engine : Type} (createEngine : Except String Engine)
    (readSql : Engine → String → Except String (List Col)) (table : String) :
    List Col :=
  match get_database_engine createEngine with
  | none => emptyFrame
  | some e =>
    match readSql e table with
    | .error _ => emptyFrame
    | .ok df =>
      if df.any (fun c => c.name = "States") then standardizeStates df else df

/-- Lexicographic strict order on embedded strings, used for the key order
of pandas `groupby(sort=True)`. -/
def lexLt : List Char → List Char → Bool
  | [], [] => false
  | [], _ :: _ => true
  | _ :: _, [] => false
  | a :: s, b :: t => if a < b then true else if b < a then false else lexLt s t

/-- Lexicographic weak order on embedded strings. -/
def lexLe (a b : List Char) : Bool := !(lexLt b a)

/-- Helper for `dedupFirst`: keep the values not seen before, remembering
the seen ones. -/
def dedupFirstAux {κ : Type} [DecidableEq κ] (seen : List κ) : List κ → List κ
  | [] => []
  | k :: t => if k ∈ seen then dedupFirstAux seen t else k :: dedupFirstAux (k :: seen) t

/-- Distinct values in first-occurrence order (the distinct group keys
before sorting). -/
def dedupFirst {κ : Type} [DecidableEq κ] (l : List κ) : List κ :=
  dedupFirstAux [] l

/-- The distinct group keys of `df.groupby(key)` in the order pandas emits
them (`sort=True`): sorted by `kle`. -/
def groupKeys {α κ : Type} [DecidableEq κ] (kle : κ → κ → Bool) (key : α → κ)
    (rows : List α) : List κ :=
  List.insertionSort (fun a b => kle a b = true) (dedupFirst (rows.map key))

/-- Model of `df.groupby(key)[val].sum()`: one pair per distinct key, carrying the
sum of `val` over the key's rows (`μ` is the numeric dtype of the summed
column). -/
def groupbySum {α κ μ : Type} [DecidableEq κ] [AddCommMonoid μ]
    (kle : κ → κ → Bool) (key : α → κ) (val : α → μ) (rows : List α) :
    List (κ × μ) :=
  (groupKeys kle key rows).map fun k =>
    (k, ((rows.filter (fun r => key r = k)).map val).sum)

/-- Model of `nlargest(n, col)` / `sort_values(ascending=False).head(n)`:
a descending sort by the measure followed by the first `n` rows.  The
default `kind="quicksort"` (to which `nlargest` falls back whenever `n` is
at least the length) is not stable, so pandas promises no particular
relative order of tied rows; `topN` fixes one admissible output (an
insertion sort) and no theorem depends on the tie order it happens to
produce — the code's actual guarantee is `SortedDescOutput`. -/
def topN {α μ : Type} [LinearOrder μ] (n : ℕ) (measure : α → μ)
    (rows : List α) : List α :=
  (List.insertionSort (fun a b => measure b ≤ measure a) rows).take n

/-- What the sort behind top-N selection guarantees about its output
before truncation: `sort_values(by=measure, ascending=False)` — the
fallback of `nlargest(n, col)` for `n` at least the length, and the sort
used directly at src/app1.py lines 383-388 — returns some permutation of
its input that is pairwise descending in the measure.  The default
`kind="quicksort"` is unstable, so nothing is promised about the relative
order of tied rows. -/
def SortedDescOutput {α μ : Type} [LinearOrder μ] (measure : α → μ)
    (rows out : List α) : Prop :=
  List.Perm out rows ∧ out.Pairwise (fun a b => measure b ≤ measure a)

/-- The possible results of a numpy float division of exact inputs: an
exact finite value, `inf`, `-inf`, or `nan`. -/
inductive NpFloat where
  | fin : ℚ → NpFloat
  | inf : NpFloat
  | ninf : NpFloat
  | nan : NpFloat
deriving DecidableEq, Repr

/-- Whether a numpy float is finite. -/
def NpFloat.isFinite : NpFloat → Bool
  | .fin _ => true
  | _ => false

/-- numpy division: exact for a nonzero denominator; division by zero
yields `inf`, `-inf` or `nan` (with a warning, never an exception). -/
def npDiv (a b : ℚ) : NpFloat :=
  if b ≠ 0 then .fin (a / b)
  else if 0 < a then .inf
  else if a < 0 then .ninf
  else .nan

/-- pandas `fillna(0)` on one float: `nan` becomes `0`; `inf` is *not* a
`NaN` and is left alone. -/
def fillna0 : NpFloat → NpFloat
  | .nan => .fin 0
  | v => v

/-- Model of `value_col.replace('_', ' ')` on a column name. -/
def underscoresToSpaces (l : List Char) : List Char :=
  l.map fun c => if c = '_' then ' ' else c

/-- Helper for Python `str.title`: the flag records whether the previous
character was alphabetic. -/
def titleCaseGo : Bool → List Char → List Char
  | _, [] => []
  | prev, c :: t =>
    (if c.isAlpha then (if prev then c.toLower else c.toUpper) else c) ::
      titleCaseGo c.isAlpha t

/-- Python `str.title`: the first letter of each word uppercased, the rest
lowercased. -/
def titleCase (l : List Char) : List Char := titleCaseGo false l

/-- Model of `col.replace('_', ' ').title()`, the display label derived from a column
name in the chart builders. -/
def pyColTitle (col : String) : List Char := titleCase (underscoresToSpaces (s2l col))

/-- Model of `df[name]` as a list of cells (the empty list when the column is
absent). -/
def colCells (df : List Col) (name : String) : List Value :=
  match df.find? (fun c => c.name == name) with
  | some c => c.cells
  | none => []

/-- The choropleth chart specification built by `create_choropleth_map`
(src/app1.py lines 130-153). -/
structure ChoroSpec where
  featureidkey : String
  locations : List Value
  z : List Value
  colorscale : String
  colorbarTitle : List Char
  projectionType : String
  title : String
  height : ℕ
deriving DecidableEq, Repr

/-- Model of `create_choropleth_map` (src/app1.py lines 124-155): `None` on an empty
frame, otherwise the choropleth specification. -/
def create_choropleth_map (df : List Col) (value_col : String) (title : String)
    (color_scale : String) (value_suffix : String) : Option ChoroSpec :=
  if frameEmpty df then none
  else some
    { featureidkey := "properties.State_Name"
      locations := colCells df "State"
      z := colCells df value_col
      colorscale := color_scale
      colorbarTitle := pyColTitle value_col ++ s2l " (" ++ s2l value_suffix ++ s2l ")"
      projectionType := "conic conformal"
      title := title
      height := 600 }

/-- The pie chart specification built by `create_pie_chart` (src/app1.py
lines 163-165). -/
structure PieSpec where
  values : List Value
  names : List Value
  title : String
  hole : ℚ
  height : ℕ
deriving DecidableEq, Repr

/-- Model of `create_pie_chart` (src/app1.py lines 157-165): `None` on an empty
frame, otherwise the pie specification (`hole=0.4`, height 400). -/
def create_pie_chart (df : List Col) (values_col names_col : String)
    (title : String) : Option PieSpec :=
  if frameEmpty df then none
  else some
    { values := colCells df values_col
      names := colCells df names_col
      title := title
      hole := 2 / 5
      height := 400 }

/-- The bar chart specification built by `create_bar_chart` (src/app1.py
lines 173-176). -/
structure BarSpec where
  x : List Value
  y : List Value
  title : String
  textAuto : Bool
  color : List Value
  height : ℕ
  xaxisTitle : List Char
  yaxisTitle : List Char
deriving DecidableEq, Repr

/-- Model of `create_bar_chart` (src/app1.py lines 167-176): `None` on an empty
frame, otherwise the bar specification with axis titles derived from the
column names. -/
def create_bar_chart (df : List Col) (x_col y_col : String) (title : String)
    (text_auto : Bool) : Option BarSpec :=
  if frameEmpty df then none
  else some
    { x := colCells df x_col
      y := colCells df y_col
      title := title
      textAuto := text_auto
      color := colCells df x_col
      height := 400
      xaxisTitle := pyColTitle x_col
      yaxisTitle := pyColTitle y_col }

/-- One row of the `aggregated_transaction` table after loading. -/
structure TxRow where
  state : List Char
  years : Int
  quarter : Int
  transaction_amount : ℚ
  transaction_count : ℚ
deriving DecidableEq, Repr

/-- One row of the `aggregated_insurance` table after loading. -/
structure InsRow where
  state : List Char
  years : Int
  quarter : Int
  insurance_amount : ℚ
  insurance_count : ℚ
deriving DecidableEq, Repr

/-- One row of the `map_user` table after grouping by state (summed
`RegisteredUsers` and `AppOpens`). -/
structure UserRow where
  state : List Char
  registeredUsers : ℚ
  appOpens : ℚ
deriving DecidableEq, Repr

/-- Model of `filtered.groupby("State", as_index=False)["Transaction_amount"].sum()`
(src/app1.py line 321). -/
def state_summary (filtered : List TxRow) : List (List Char × ℚ) :=
  groupbySum lexLe (fun r => r.state) (fun r => r.transaction_amount) filtered

/-- Model of `state_summary.nlargest(10, "Transaction_amount")` (src/app1.py line
329). -/
def top10_states (summary : List (List Char × ℚ)) : List (List Char × ℚ) :=
  topN 10 Prod.snd summary

/-- Model of `filtered.groupby("State").apply(lambda x: x["Transaction_amount"].sum()
/ x["Transaction_count"].sum())` (src/app1.py line 347): the sum of amounts
divided by the raw sum of counts, per state. -/
def avg_val (filtered : List TxRow) : List (List Char × NpFloat) :=
  (groupKeys lexLe (fun r => r.state) filtered).map fun k =>
    (k, npDiv ((filtered.filter (fun r => r.state = k)).map
                 (fun r => r.transaction_amount)).sum
              ((filtered.filter (fun r => r.state = k)).map
                 (fun r => r.transaction_count)).sum)

/-- Model of `ins["Insurance_amount"] / (ins["Insurance_count"] + 1)` (src/app1.py
line 470): the per-row average policy value with the `+ 1` denominator
guard. -/
def avg_policy_value (r : InsRow) : NpFloat :=
  npDiv r.insurance_amount (r.insurance_count + 1)

/-- Model of `(exp_summary["Transaction_amount"] / exp_summary["Transaction_count"])
.fillna(0)` (src/app1.py line 504), applied to one grouped row's summed
amount and count. -/
def growth_score (amount count : ℚ) : NpFloat :=
  fillna0 (npDiv amount count)

/-- Model of `user_sum["AppOpens"] / (user_sum["RegisteredUsers"] + 1)` (src/app1.py
line 546): the engagement rate with the `+ 1` denominator guard. -/
def engagement_rate (u : UserRow) : NpFloat :=
  npDiv u.appOpens (u.registeredUsers + 1)

/-- Python `isinstance(x, str)` on a cell. -/
def Value.isStr : Value → Bool
  | .vstr _ => true
  | _ => false

/-- A one-row transaction table whose only state group has a true zero
transaction count and a positive amount. -/
def zeroCountRow : TxRow :=
  { state := s2l "goa", years := 2023, quarter := 1,
    transaction_amount := 100, transaction_count := 0 }

/-- The two-row transaction table of the end-to-end example. -/
def c9_rows : List TxRow :=
  [ { state := s2l "maharashtra", years := 2023, quarter := 1,
      transaction_amount := 100, transaction_count := 10 },
    { state := s2l "odisha", years := 2023, quarter := 1,
      transaction_amount := 50, transaction_count := 5 } ]

/-- A three-group keyed table with a tie in the measure, for exercising
top-N selection. -/
def c6_rows : List (List Char × ℤ) :=
  [(s2l "b", 7), (s2l "a", 7), (s2l "c", 10)]

/-! ## Helper lemmas -/

theorem any_states_eq_false {df : List Col} (h : ∀ c ∈ df, c.name ≠ "States") :
    (df.any fun c => c.name = "States") = false := by
  simp only [List.any_eq_false, decide_eq_true_eq]
  exact h

theorem any_states_eq_true {df : List Col} (h : ∃ c ∈ df, c.name = "States") :
    (df.any fun c => c.name = "States") = true := by
  simp only [List.any_eq_true, decide_eq_true_eq]
  exact h

/-! ## Claims -/

/-- Claim C1 (counterexample): the claim says that missing or non-string
region inputs normalize to the empty string in *both* paths, but the
tabular path's `.str.lower().str.strip()` maps a missing or non-string
cell to a missing value (`NaN`), not to the empty string. -/
theorem C1_counterexample :
    tabStandardizeCell Value.vnull ≠ Value.vstr (s2l "") ∧
    tabStandardizeCell (Value.vnum 7) ≠ Value.vstr (s2l "") ∧
    tabStandardizeCell Value.vnull = Value.vnull ∧
    tabStandardizeCell (Value.vnum 7) = Value.vnull := by
  decide

/-- Claim C1 (amended): for every missing or non-string region input the
geographic-reference path yields the empty string, while the tabular path
yields a missing value (`NaN`); neither path fails. -/
theorem C1_nonstring_normalization (v : Value) (h : v.isStr = false) :
    geoStandardizeName v = s2l "" ∧ tabStandardizeCell v = Value.vnull ∧
    geoStandardizeName (geoStateName none) = s2l "" := by
  cases v with
  | vstr s => simp [Value.isStr] at h
  | vnum n => exact ⟨rfl, rfl, rfl⟩
  | vnull => exact ⟨rfl, rfl, rfl⟩

/-- Witness for C1: the amended claim evaluated at a missing cell. -/
theorem C1_nonstring_normalization_witness :
    Value.vnull.isStr = false ∧
    (geoStandardizeName Value.vnull = s2l "" ∧
      tabStandardizeCell Value.vnull = Value.vnull ∧
      geoStandardizeName (geoStateName none) = s2l "") :=
  ⟨rfl, C1_nonstring_normalization Value.vnull rfl⟩

/-- Claim C3: when the engine cannot be created or the query for a table
identifier raises, the tabular loader returns the empty frame (zero rows,
no columns) rather than propagating the error. -/
theorem C3_loader_failure_returns_empty {Engine : Type}
    (createEngine : Except String Engine)
    (readSql : Engine → String → Except String (List Col)) (table : String)
    (hfail : (∃ msg, createEngine = Except.error msg) ∨
      ∃ e msg, createEngine = Except.ok e ∧ readSql e table = Except.error msg) :
    load_table_data createEngine readSql table = emptyFrame := by
  rcases hfail with ⟨msg, hmsg⟩ | ⟨e, msg, hok, herr⟩
  · simp [load_table_data, get_database_engine, hmsg]
  · simp [load_table_data, get_database_engine, hok, herr]

/-- Witness for C3: a failing engine and a failing query, both at the
table name `"top_user"`. -/
theorem C3_loader_failure_returns_empty_witness :
    load_table_data (Except.error "no db" : Except String Unit)
      (fun _ _ => Except.error "bad") "top_user" = emptyFrame ∧
    load_table_data (Except.ok () : Except String Unit)
      (fun _ _ => Except.error "bad table") "top_user" = emptyFrame :=
  ⟨C3_loader_failure_returns_empty _ _ _ (Or.inl ⟨"no db", rfl⟩),
    C3_loader_failure_returns_empty _ _ _ (Or.inr ⟨(), "bad table", rfl, rfl⟩)⟩

/-- Claim C10: when the fetched table has no `"States"` column the loader
returns it completely unchanged: no cell is normalized and no `"State"`
column is added. -/
theorem C10_no_states_column_unchanged {Engine : Type}
    (createEngine : Except String Engine)
    (readSql : Engine → String → Except String (List Col)) (table : String)
    (e : Engine) (df : List Col)
    (hok : createEngine = Except.ok e) (hread : readSql e table = Except.ok df)
    (hcol : ∀ c ∈ df, c.name ≠ "States") :
    load_table_data createEngine readSql table = df ∧
    ((∀ c ∈ df, c.name ≠ "State") →
      ∀ c ∈ load_table_data createEngine readSql table, c.name ≠ "State") := by
  have hload : load_table_data createEngine readSql table = df := by
    simp [load_table_data, get_database_engine, hok, hread, any_states_eq_false hcol]
  exact ⟨hload, fun hns c hc => hns c (hload ▸ hc)⟩

/-- Witness for C10: a table with a single `"Districts"` column passes
through the loader untouched. -/
theorem C10_no_states_column_unchanged_witness :
    load_table_data (Except.ok () : Except String Unit)
      (fun _ _ => Except.ok [Col.mk "Districts" [Value.vstr (s2l "Pune")]]) "map_user" =
      [Col.mk "Districts" [Value.vstr (s2l "Pune")]] :=
  (C10_no_states_column_unchanged _ _ "map_user" () _ rfl rfl
    (by decide)).1

/-- Claim C7: when the fetched table has a `"States"` column, the loader's
output is exactly the table with that column normalized cell-by-cell and
renamed to `"State"`, while every column with another name is present
unchanged (same name, same cells, same count of columns). -/
theorem C7_states_column_standardized {Engine : Type}
    (createEngine : Except String Engine)
    (readSql : Engine → String → Except String (List Col)) (table : String)
    (e : Engine) (df : List Col)
    (hok : createEngine = Except.ok e) (hread : readSql e table = Except.ok df)
    (hcol : ∃ c ∈ df, c.name = "States") :
    load_table_data createEngine readSql table = standardizeStates df ∧
    (∀ c ∈ df, c.name ≠ "States" → c ∈ load_table_data createEngine readSql table) ∧
    (∀ c ∈ df, c.name = "States" →
      Col.mk "State" (c.cells.map tabStandardizeCell) ∈
        load_table_data createEngine readSql table) ∧
    (load_table_data createEngine readSql table).length = df.length := by
  have hload : load_table_data createEngine readSql table = standardizeStates df := by
    simp [load_table_data, get_database_engine, hok, hread, any_states_eq_true hcol]
  refine ⟨hload, ?_, ?_, ?_⟩
  · intro c hc hne
    rw [hload]
    have : (fun c : Col => if c.name = "States" then
        Col.mk "State" (c.cells.map tabStandardizeCell) else c) c = c := by
      simp [hne]
    exact this ▸ List.mem_map_of_mem _ hc
  · intro c hc hname
    rw [hload]
    have : (fun c : Col => if c.name = "States" then
        Col.mk "State" (c.cells.map tabStandardizeCell) else c) c =
        Col.mk "State" (c.cells.map tabStandardizeCell) := by
      simp [hname]
    exact this ▸ List.mem_map_of_mem _ hc
  · rw [hload, standardizeStates, List.length_map]

/-- Witness for C7: a two-column table; the `"States"` column is
normalized ("Orissa " becomes "odisha") and renamed, the measure column
passes through unchanged. -/
theorem C7_states_column_standardized_witness :
    load_table_data (Except.ok () : Except String Unit)
      (fun _ _ => Except.ok
        [Col.mk "States" [Value.vstr (s2l "Orissa ")],
         Col.mk "Transaction_amount" [Value.vnum 100]]) "agg_transaction" =
      standardizeStates
        [Col.mk "States" [Value.vstr (s2l "Orissa ")],
         Col.mk "Transaction_amount" [Value.vnum 100]] ∧
    Col.mk "State" [Value.vstr (s2l "odisha")] ∈
      load_table_data (Except.ok () : Except String Unit)
        (fun _ _ => Except.ok
          [Col.mk "States" [Value.vstr (s2l "Orissa ")],
           Col.mk "Transaction_amount" [Value.vnum 100]]) "agg_transaction" ∧
    Col.mk "Transaction_amount" [Value.vnum 100] ∈
      load_table_data (Except.ok () : Except String Unit)
        (fun _ _ => Except.ok
          [Col.mk "States" [Value.vstr (s2l "Orissa ")],
           Col.mk "Transaction_amount" [Value.vnum 100]]) "agg_transaction" := by
  have h := C7_states_column_standardized (Except.ok () : Except String Unit)
    (fun _ _ => Except.ok
      [Col.mk "States" [Value.vstr (s2l "Orissa ")],
       Col.mk "Transaction_amount" [Value.vnum 100]]) "agg_transaction" () _ rfl rfl
    ⟨Col.mk "States" [Value.vstr (s2l "Orissa ")], by decide, rfl⟩
  refine ⟨h.1, ?_, ?_⟩
  · have hmem := h.2.2.1 (Col.mk "States" [Value.vstr (s2l "Orissa ")]) (by decide) rfl
    have heq : tabStandardizeCell (Value.vstr (s2l "Orissa ")) =
        Value.vstr (s2l "odisha") := by decide
    simpa [heq] using hmem
  · exact h.2.1 (Col.mk "Transaction_amount" [Value.vnum 100]) (by decide) (by decide)

/-- Claim C8: for every raw region name in the alias table, normalization
is idempotent in both the tabular path and the geographic-reference path:
normalizing twice equals normalizing once. -/
theorem C8_alias_normalization_idempotent :
    ∀ p ∈ state_mappings,
      tabStandardizeCell (tabStandardizeCell (Value.vstr p.1)) =
        tabStandardizeCell (Value.vstr p.1) ∧
      geoStandardizeName (Value.vstr (geoStandardizeName (Value.vstr p.1))) =
        geoStandardizeName (Value.vstr p.1) := by
  decide

/-- Witness for C8: idempotence evaluated at the alias key `"orissa"`. -/
theorem C8_alias_normalization_idempotent_witness :
    tabStandardizeCell (tabStandardizeCell (Value.vstr (s2l "orissa"))) =
      tabStandardizeCell (Value.vstr (s2l "orissa")) ∧
    geoStandardizeName (Value.vstr (geoStandardizeName (Value.vstr (s2l "orissa")))) =
      geoStandardizeName (Value.vstr (s2l "orissa")) :=
  C8_alias_normalization_idempotent (s2l "orissa", s2l "odisha") (by decide)

/-- Claim C4: on an empty input table each chart assembler returns the
`none` sentinel instead of a chart specification, and grouping an empty
table by any key yields an empty aggregation result. -/
theorem C4_empty_frame_no_data (df : List Col)
    (value_col title color_scale value_suffix values_col names_col x_col y_col : String)
    (text_auto : Bool) (key : TxRow → List Char) (val : TxRow → ℚ)
    (h : frameEmpty df = true) :
    create_choropleth_map df value_col title color_scale value_suffix = none ∧
    create_pie_chart df values_col names_col title = none ∧
    create_bar_chart df x_col y_col title text_auto = none ∧
    groupbySum lexLe key val ([] : List TxRow) = [] :=
  ⟨by simp [create_choropleth_map, h], by simp [create_pie_chart, h],
    by simp [create_bar_chart, h], by simp [groupbySum, groupKeys, dedupFirst, dedupFirstAux]⟩

/-- Witness for C4: the zero-row, zero-column frame `pd.DataFrame()`. -/
theorem C4_empty_frame_no_data_witness :
    frameEmpty emptyFrame = true ∧
    (create_choropleth_map emptyFrame "Amount_M" "Heatmap" "Blues" "M" = none ∧
      create_pie_chart emptyFrame "Transaction_count" "Transaction_type" "Types" = none ∧
      create_bar_chart emptyFrame "State" "Amount_M" "Top 10" true = none ∧
      groupbySum lexLe (fun r => r.state) (fun r => r.transaction_amount)
        ([] : List TxRow) = []) :=
  ⟨rfl, C4_empty_frame_no_data emptyFrame "Amount_M" "Heatmap" "Blues" "M"
    "Transaction_count" "Transaction_type" "State" "Amount_M" true
    (fun r => r.state) (fun r => r.transaction_amount) rfl⟩

/-- Claim C2 (counterexample): the claim says every derived ratio measure
has its denominator guarded against zero, but the Transaction Dynamics
average transaction value divides by the raw count sum with no guard: on a
group with a true zero count it divides by zero and yields an infinite
(non-finite) value. -/
theorem C2_counterexample :
    ((([zeroCountRow].filter (fun r => r.state = s2l "goa")).map
        (fun r => r.transaction_count)).sum = 0) ∧
    avg_val [zeroCountRow] = [(s2l "goa", NpFloat.inf)] ∧
    NpFloat.isFinite NpFloat.inf = false := by
  refine ⟨?_, ?_, rfl⟩
  · norm_num [zeroCountRow, s2l]
  · norm_num [avg_val, groupKeys, dedupFirst, dedupFirstAux, npDiv, zeroCountRow, s2l]

/-- Claim C2 (amended): the ratio measures guarded by adding 1 to the
denominator — the insurance average policy value and the user engagement
rate — never divide by zero for nonnegative counts and always return a
finite value; the unguarded average transaction value (and the growth
score, whose `fillna(0)` repairs only the `0/0` case) can yield an
infinite value on a zero-count group. -/
theorem C2_guarded_ratios_finite (r : InsRow) (u : UserRow)
    (hr : 0 ≤ r.insurance_count) (hu : 0 ≤ u.registeredUsers) :
    (avg_policy_value r).isFinite = true ∧ (engagement_rate u).isFinite = true := by
  constructor
  · have hne : r.insurance_count + 1 ≠ 0 := by positivity
    simp [avg_policy_value, npDiv, hne, NpFloat.isFinite]
  · have hne : u.registeredUsers + 1 ≠ 0 := by positivity
    simp [engagement_rate, npDiv, hne, NpFloat.isFinite]

/-- Witness for C2: a zero-count insurance row and a zero-user state both
produce finite guarded ratios. -/
theorem C2_guarded_ratios_finite_witness :
    (0 : ℚ) ≤ (InsRow.mk (s2l "goa") 2023 1 100 0).insurance_count ∧
    (0 : ℚ) ≤ (UserRow.mk (s2l "goa") 0 5).registeredUsers ∧
    ((avg_policy_value (InsRow.mk (s2l "goa") 2023 1 100 0)).isFinite = true ∧
      (engagement_rate (UserRow.mk (s2l "goa") 0 5)).isFinite = true) :=
  ⟨by decide, by decide,
    C2_guarded_ratios_finite (InsRow.mk (s2l "goa") 2023 1 100 0)
      (UserRow.mk (s2l "goa") 0 5) (by decide) (by decide)⟩

theorem dropWhile_append_of_forall {p : Char → Bool} {a : List Char}
    (b : List Char) (h : ∀ c ∈ a, p c = true) :
    (a ++ b).dropWhile p = b.dropWhile p := by
  induction a with
  | nil => simp
  | cons c t ih =>
    rw [List.cons_append, List.dropWhile_cons, h c (List.mem_cons_self c t)]
    exact ih fun x hx => h x (List.mem_cons_of_mem c hx)

theorem toLower_of_isPyWS {c : Char} (h : isPyWS c = true) : c.toLower = c := by
  simp only [isPyWS, Bool.or_eq_true, beq_iff_eq] at h
  obtain ((((h | h) | h) | h) | h) | h := h <;> subst h <;> decide

/-- Lowercasing then stripping a whitespace-padded, arbitrarily-cased
string yields the lowercase core: the combined effect of `.lower().strip()`
on `w1 ++ t ++ w2` when `t` lowercases to `target`, `target` starts and
ends with a non-whitespace character, and `w1`, `w2` are whitespace. -/
theorem strip_lower_sandwich {w1 t w2 target : List Char}
    (h1 : ∀ c ∈ w1, isPyWS c = true) (h2 : ∀ c ∈ w2, isPyWS c = true)
    (ht : lowerL t = target)
    (hd : ∃ c rest, target = c :: rest ∧ isPyWS c = false)
    (hl : ∃ c rest, target.reverse = c :: rest ∧ isPyWS c = false) :
    stripL (lowerL (w1 ++ t ++ w2)) = target := by
  obtain ⟨c, rest, hc, hcw⟩ := hd
  obtain ⟨d, rrest, hdr, hdw⟩ := hl
  have hw1 : ∀ x ∈ lowerL w1, isPyWS x = true := by
    intro x hx
    obtain ⟨y, hy, rfl⟩ := List.mem_map.mp hx
    rw [toLower_of_isPyWS (h1 y hy)]
    exact h1 y hy
  have hw2 : ∀ x ∈ (lowerL w2).reverse, isPyWS x = true := by
    intro x hx
    obtain ⟨y, hy, rfl⟩ := List.mem_map.mp (List.mem_reverse.mp hx)
    rw [toLower_of_isPyWS (h2 y hy)]
    exact h2 y hy
  have hsplit : lowerL (w1 ++ t ++ w2) = lowerL w1 ++ (target ++ lowerL w2) := by
    simp only [lowerL] at ht ⊢
    rw [List.map_append, List.map_append, ht, List.append_assoc]
  rw [hsplit]
  unfold stripL
  rw [dropWhile_append_of_forall _ hw1]
  have hfront : (target ++ lowerL w2).dropWhile isPyWS = target ++ lowerL w2 := by
    rw [hc, List.cons_append, List.dropWhile_cons, hcw]
    simp
  rw [hfront, List.reverse_append, dropWhile_append_of_forall _ hw2]
  have hback : target.reverse.dropWhile isPyWS = target.reverse := by
    rw [hdr, List.dropWhile_cons, hdw]
    simp
  rw [hback, List.reverse_reverse]

/-- Claim C5: any casing of `"orissa"` under any surrounding whitespace
normalizes to `"odisha"` in both the geographic-reference path and the
tabular path, and `"Andaman and Nicobar"` normalizes to
`"andaman & nicobar islands"` via the tabular alias path. -/
theorem C5_orissa_and_andaman_normalization (w1 t w2 : List Char)
    (h1 : ∀ c ∈ w1, isPyWS c = true) (h2 : ∀ c ∈ w2, isPyWS c = true)
    (ht : lowerL t = s2l "orissa") :
    geoStandardizeName (Value.vstr (w1 ++ t ++ w2)) = s2l "odisha" ∧
    tabStandardizeCell (Value.vstr (w1 ++ t ++ w2)) = Value.vstr (s2l "odisha") ∧
    tabStandardizeCell (Value.vstr (s2l "Andaman and Nicobar")) =
      Value.vstr (s2l "andaman & nicobar islands") := by
  have hstrip : stripL (lowerL (w1 ++ t ++ w2)) = s2l "orissa" :=
    strip_lower_sandwich h1 h2 ht ⟨'o', s2l "rissa", by decide, by decide⟩
      ⟨'a', s2l "ssiro", by decide, by decide⟩
  rw [List.append_assoc] at hstrip
  rw [List.append_assoc]
  refine ⟨?_, ?_, by decide⟩
  · simp [geoStandardizeName, hstrip]
  · simp only [tabStandardizeCell, strLower, strStrip, hstrip]
    decide

/-- Witness for C5: the input `"  OrIsSa"` followed by a tab. -/
theorem C5_orissa_and_andaman_normalization_witness :
    geoStandardizeName (Value.vstr (s2l "  " ++ s2l "OrIsSa" ++ ['\t'])) =
      s2l "odisha" ∧
    tabStandardizeCell (Value.vstr (s2l "  " ++ s2l "OrIsSa" ++ ['\t'])) =
      Value.vstr (s2l "odisha") ∧
    tabStandardizeCell (Value.vstr (s2l "Andaman and Nicobar")) =
      Value.vstr (s2l "andaman & nicobar islands") :=
  C5_orissa_and_andaman_normalization (s2l "  ") (s2l "OrIsSa") ['\t']
    (by decide) (by decide) (by decide)

/-- Claim C6 (counterexample): the tie-breaking clause of the claim is
not a property of the code.  On the grouped table of `c6_rows` (two groups
tied at measure 7, in original order "a" then "b") the output
`[("c",10), ("b",7), ("a",7)]` satisfies everything the code's sort
guarantees — a permutation of the groups, pairwise descending in the
measure — yet its tied rows are not in original row order, so top-N
selection built on that sort does not break ties by original row order. -/
theorem C6_counterexample :
    SortedDescOutput Prod.snd (groupbySum lexLe Prod.fst Prod.snd c6_rows)
      [(s2l "c", (10 : ℤ)), (s2l "b", 7), (s2l "a", 7)] ∧
    List.filter (fun x => x.2 = (7 : ℤ))
        [(s2l "c", (10 : ℤ)), (s2l "b", 7), (s2l "a", 7)] ≠
      List.filter (fun x => x.2 = (7 : ℤ))
        (groupbySum lexLe Prod.fst Prod.snd c6_rows) :=
  ⟨⟨by decide, by decide⟩, by decide⟩

/-- Claim C6 (amended): for every table, grouping key, measure and `n` at
least the number of distinct groups, every output the code's descending
sort may produce, truncated to `n` rows, contains all groups with no
duplication or omission (it is a permutation of the grouped table) and is
sorted descending by the measure; the relative order of tied groups is
unspecified.  The model's `topN` is one such admissible output. -/
theorem C6_topn_all_groups_descending {α κ μ : Type} [DecidableEq κ]
    [AddCommMonoid μ] [LinearOrder μ] (kle : κ → κ → Bool) (key : α → κ)
    (val : α → μ) (rows : List α) (n : ℕ) (out : List (κ × μ))
    (h : (groupbySum kle key val rows).length ≤ n)
    (hout : SortedDescOutput Prod.snd (groupbySum kle key val rows) out) :
    List.Perm (out.take n) (groupbySum kle key val rows) ∧
    (out.take n).Pairwise (fun a b => b.2 ≤ a.2) ∧
    SortedDescOutput Prod.snd (groupbySum kle key val rows)
      (topN n Prod.snd (groupbySum kle key val rows)) := by
  haveI : IsTotal (κ × μ) (fun a b => b.2 ≤ a.2) := ⟨fun a b => le_total b.2 a.2⟩
  haveI : IsTrans (κ × μ) (fun a b => b.2 ≤ a.2) :=
    ⟨fun _ _ _ hab hbc => le_trans hbc hab⟩
  have htakeout : out.take n = out :=
    List.take_of_length_le (by rw [hout.1.length_eq]; exact h)
  have htake : topN n Prod.snd (groupbySum kle key val rows) =
      List.insertionSort (fun a b => Prod.snd b ≤ Prod.snd a)
        (groupbySum kle key val rows) := by
    unfold topN
    exact List.take_of_length_le (by rw [List.length_insertionSort]; exact h)
  refine ⟨?_, ?_, ?_, ?_⟩
  · rw [htakeout]
    exact hout.1
  · rw [htakeout]
    exact hout.2
  · rw [htake]
    exact List.perm_insertionSort _ _
  · rw [htake]
    exact List.sorted_insertionSort (fun a b : κ × μ => b.2 ≤ a.2) _

/-- Witness for C6: the three-group table `c6_rows` with `n = 5` and the
tie-swapped admissible output `[("c",10), ("b",7), ("a",7)]`. -/
theorem C6_topn_all_groups_descending_witness :
    (groupbySum lexLe Prod.fst Prod.snd c6_rows).length ≤ 5 ∧
    SortedDescOutput Prod.snd (groupbySum lexLe Prod.fst Prod.snd c6_rows)
      [(s2l "c", (10 : ℤ)), (s2l "b", 7), (s2l "a", 7)] ∧
    List.Perm ([(s2l "c", (10 : ℤ)), (s2l "b", 7), (s2l "a", 7)].take 5)
      (groupbySum lexLe Prod.fst Prod.snd c6_rows) ∧
    ([(s2l "c", (10 : ℤ)), (s2l "b", 7), (s2l "a", 7)].take 5).Pairwise
      (fun a b => b.2 ≤ a.2) ∧
    SortedDescOutput Prod.snd (groupbySum lexLe Prod.fst Prod.snd c6_rows)
      (topN 5 Prod.snd (groupbySum lexLe Prod.fst Prod.snd c6_rows)) :=
  ⟨by decide, ⟨by decide, by decide⟩,
    C6_topn_all_groups_descending lexLe Prod.fst Prod.snd c6_rows 5
      [(s2l "c", (10 : ℤ)), (s2l "b", 7), (s2l "a", 7)]
      (by decide) ⟨by decide, by decide⟩⟩

/-- Claim C9: on the concrete two-row table (maharashtra, 2023 Q1, amount
100) and (odisha, 2023 Q1, amount 50), grouping by state and summing the
amount yields exactly two rows whose amounts sum to 150, and top-1 by
amount returns only maharashtra with amount 100. -/
theorem C9_end_to_end_example :
    state_summary c9_rows =
      [(s2l "maharashtra", (100 : ℚ)), (s2l "odisha", (50 : ℚ))] ∧
    (state_summary c9_rows).length = 2 ∧
    ((state_summary c9_rows).map Prod.snd).sum = 150 ∧
    topN 1 Prod.snd (state_summary c9_rows) = [(s2l "maharashtra", (100 : ℚ))] := by
  have h : state_summary c9_rows =
      [(s2l "maharashtra", (100 : ℚ)), (s2l "odisha", (50 : ℚ))] := by
    simp +decide [state_summary, groupbySum, groupKeys, dedupFirst, dedupFirstAux,
      lexLe, lexLt, s2l, c9_rows, List.insertionSort, List.orderedInsert]
  refine ⟨h, by rw [h]; rfl, ?_, ?_⟩
  · rw [h]
    norm_num
  · rw [h]
    norm_num [topN, List.insertionSort, List.orderedInsert]
